import Mathlib

/-!
Shallow embedding of the randolph-dashboard repository.

Sources embedded:
- `src/app/api/odoo/route.js` (the API route, "stats" and "invoice" operations);
- the client dashboard page, two observed variants:
  calendar-year variant (filtering by calendar year, months Jan-Dec) and
  financial-year variant (financial year starting in April, months Apr-Mar);
- `src/lib/odoo.js` (configuration handling).

Conventions of the embedding:
- JS numbers are modelled as exact rationals (ℚ);
- a JS `Date` parsed from an invoice-date string is modelled as a
  (year, month, day) triple with `month` 0-based as in `Date.getMonth()`
  and `day` 1-based as in `Date.getDate()`;
- JS objects used as string-keyed records are modelled as association
  lists in insertion order (JS enumerates string keys in insertion order
  and integer-like keys in ascending numeric order, which coincides with
  insertion order everywhere the code builds such records);
- a nullable / possibly-`false` field is modelled as an `Option`.
-/

/-- A parsed JS `Date`: `year` as `getFullYear()`, `month` as `getMonth()`
(0 = January), `day` as `getDate()` (1-based). -/
structure JsDate where
  year : Int
  month : Nat
  day : Nat
deriving DecidableEq, Repr

/-- `Math.abs` on an exact rational. -/
def jsMathAbs (q : ℚ) : ℚ := if q < 0 then -q else q

/-- A record returned by the `account.move` search in the stats branch:
fields `name, invoice_date, amount_total, partner_shipping_id, id, move_type,
state` (the untaxed/tax amounts are fetched but unused by the processing).
`partner_shipping` models the Odoo many2one value `[id, display_name]`
(or `false`, modelled as `none`). -/
structure OdooInvoice where
  id : Nat
  name : String
  invoice_date : JsDate
  amount_total : ℚ
  move_type : String
  partner_shipping : Option (Nat × String)
  state : String
deriving DecidableEq, Repr

/-- The per-record amount computed in the stats branch:
`let amountTotal = inv.amount_total || 0;
 if (inv.move_type === 'out_refund') amountTotal = -Math.abs(amountTotal);
 else amountTotal = Math.abs(amountTotal);` -/
def signAdjustedAmount (inv : OdooInvoice) : ℚ :=
  let amountTotal := inv.amount_total
  if inv.move_type = "out_refund" then -(jsMathAbs amountTotal) else jsMathAbs amountTotal

/-- `Array.isArray(inv.partner_shipping_id) ? inv.partner_shipping_id[1] : 'Unknown'` -/
def addressNameOf (inv : OdooInvoice) : String :=
  match inv.partner_shipping with
  | some p => p.2
  | none => "Unknown"

/-- An element of a bucket's `orders` array:
`{ id: inv.id, name: inv.name, date: inv.invoice_date, amount: amountTotal }`. -/
structure OrderSummary where
  id : Nat
  name : String
  date : JsDate
  amount : ℚ
deriving DecidableEq, Repr

/-- A `salesByAddress[addressName]` bucket: `{ count, total, orders }`. -/
structure Bucket where
  count : Nat
  total : ℚ
  orders : List OrderSummary
deriving DecidableEq, Repr

/-- One `forEach` step on the `salesByAddress` record: if the key is present
update it in place, otherwise append a fresh `{ count: 1, total: amt,
orders: [entry] }` entry at the end (JS record insertion order). -/
def bumpBucket (m : List (String × Bucket)) (k : String) (e : OrderSummary) (amt : ℚ) :
    List (String × Bucket) :=
  match m with
  | [] => [(k, ⟨1, amt, [e]⟩)]
  | (k', b) :: rest =>
    if k' = k then (k', ⟨b.count + 1, b.total + amt, b.orders ++ [e]⟩) :: rest
    else (k', b) :: bumpBucket rest k e amt

/-- The state threaded through `invoices.forEach`: the running
`totalRevenue` and the `salesByAddress` record. -/
def statsStep (st : ℚ × List (String × Bucket)) (inv : OdooInvoice) :
    ℚ × List (String × Bucket) :=
  let amountTotal := signAdjustedAmount inv
  let entry : OrderSummary :=
    { id := inv.id, name := inv.name, date := inv.invoice_date, amount := amountTotal }
  (st.1 + amountTotal, bumpBucket st.2 (addressNameOf inv) entry amountTotal)

/-- The `kpi` object of the stats response. -/
structure Kpi where
  revenue : ℚ
  orders : Nat
  items : Nat
  avgOrderValue : ℚ
deriving DecidableEq, Repr

/-- The JSON body of a successful stats response. -/
structure StatsResponse where
  customer : String
  kpi : Kpi
  salesByAddress : List (String × Bucket)
  recentInvoices : List OdooInvoice
deriving DecidableEq, Repr

/-- Steps 3-4 of the stats branch: process the fetched invoices into
`totalRevenue`, `totalOrders`, `salesByAddress`, `avgOrderValue`, and the
`recentInvoices` list whose `amount_total` is replaced by the same
sign-adjusted amount. -/
def statsProcess (customerName : String) (invoices : List OdooInvoice) : StatsResponse :=
  let totalOrders := invoices.length
  let acc := invoices.foldl statsStep (0, [])
  let totalRevenue := acc.1
  let salesByAddress := acc.2
  let avgOrderValue : ℚ := if totalOrders > 0 then totalRevenue / (totalOrders : ℚ) else 0
  { customer := customerName
    kpi := { revenue := totalRevenue, orders := totalOrders, items := 0,
             avgOrderValue := avgOrderValue }
    salesByAddress := salesByAddress
    recentInvoices := invoices.map (fun inv => { inv with amount_total := signAdjustedAmount inv }) }

/-- An HTTP-style response: either a JSON payload or
`NextResponse.json({ error }, { status })`. -/
inductive ApiResult (α : Type) where
  | ok : α → ApiResult α
  | err : Nat → String → ApiResult α
deriving DecidableEq, Repr

/-- The HTTP status of an `ApiResult` (200 for a JSON payload). -/
def ApiResult.status {α : Type} : ApiResult α → Nat
  | .ok _ => 200
  | .err s _ => s

/-- A 4xx-style ("client-visible") status. -/
def is4xxStatus (s : Nat) : Prop := 400 ≤ s ∧ s < 500

/-- A `res.partner` record as used by the stats branch (`id`, `name`). -/
structure Partner where
  id : Nat
  name : String
deriving DecidableEq, Repr

/-- The control flow of the stats branch up to invoice processing:
`customerRef` is `process.env.ODOO_CUSTOMER_REF` (`none` when unset —
note `!customerRef` also catches the empty string), `partners` is the
result of the `res.partner` search by `ref`, and `invoices` the result of
the `account.move` search. Mirrors:
`if (!customerRef) return json({error}, {status: 500});
 if (!partners || partners.length === 0) return json({error}, {status: 404});` -/
def statsGET (customerRef : Option String) (partners : List Partner)
    (invoices : List OdooInvoice) : ApiResult StatsResponse :=
  match customerRef with
  | none => ApiResult.err 500 "Missing ODOO_CUSTOMER_REF environment variable"
  | some ref =>
    match partners with
    | [] => ApiResult.err 404 ("Customer with Ref " ++ ref ++ " not found")
    | p :: _ => ApiResult.ok (statsProcess p.name invoices)

/-- `getOdooConfig` from `src/lib/odoo.js`: each field is `none` when the
environment variable is unset (JS falsiness also covers the empty string);
throwing is modelled as `Except.error`. -/
def getOdooConfig (url db username password : Option String) :
    Except String (String × String × String × String) :=
  match url, db, username, password with
  | some u, some d, some un, some p => Except.ok (u, d, un, p)
  | _, _, _, _ => Except.error "Missing Odoo environment variables"

/-! ### The "invoice" operation (line-item retrieval with three-tier fallback) -/

/-- An `account.move.line` record with the fields the invoice branch reads.
Missing / `false` values are `none`. `product_id` and `account_id` model the
many2one `[id, display_name]` pairs. -/
structure MoveLine where
  id : Nat
  name : Option String
  product_id : Option (Nat × String)
  quantity : Option ℚ
  price_unit : Option ℚ
  price_subtotal : Option ℚ
  discount : Option ℚ
  display_type : Option String
  account_id : Option (Nat × String)
deriving DecidableEq, Repr

/-- An `account.move` row from the tier-1 query, carrying
`invoice_line_ids` (`none` when the field is absent / not an array). -/
structure MoveRow where
  invoice_line_ids : Option (List Nat)
deriving DecidableEq, Repr

/-- The four remote reads the invoice branch can issue, abstracted as
oracles: the tier-1 `account.move` search, the read of the listed line ids,
the tier-2 server-side filtered search, and the tier-3 raw fetch. A
rejected remote call is `Except.error` with the fault message. -/
structure RemoteOracle where
  fetchMove : Except String (List MoveRow)
  fetchLinesByIds : Except String (List MoveLine)
  fetchSrvFiltered : Except String (List MoveLine)
  fetchRaw : Except String (List MoveLine)

/-- The tier-3 client-side filter:
`if (!l.product_id) return false;
 if (l.display_type && ['line_section','line_note'].includes(l.display_type)) return false;
 if (!(subtotal > 0)) return false; return true;`
with `subtotal = parseFloat(l.price_subtotal || 0)`. -/
def rawLineKeep (l : MoveLine) : Bool :=
  let subtotal := l.price_subtotal.getD 0
  if l.product_id.isNone then false
  else if (l.display_type.getD "") = "line_section" ∨ (l.display_type.getD "") = "line_note" then
    false
  else if ¬ (0 < subtotal) then false
  else true

/-- Tiers 2 and 3: try the server-side filtered search; on failure fall back
to the raw fetch filtered in JS. A failure of the raw fetch propagates to
the surrounding catch. -/
def fallbackLines (o : RemoteOracle) : Except String (List MoveLine) :=
  match o.fetchSrvFiltered with
  | Except.ok srvLines => Except.ok srvLines
  | Except.error _ =>
    match o.fetchRaw with
    | Except.error e => Except.error e
    | Except.ok rawLines => Except.ok (rawLines.filter rawLineKeep)

/-- The body of the inner `try` of the invoice branch: resolve the line
items through the three tiers; `Except.error` means the inner `catch`
fires. -/
def retrieveLines (o : RemoteOracle) : Except String (List MoveLine) :=
  match o.fetchMove with
  | Except.error e => Except.error e
  | Except.ok moveRows =>
    match moveRows with
    | [] => fallbackLines o
    | mr :: _ =>
      match mr.invoice_line_ids with
      | none => fallbackLines o
      | some lineIds =>
        if lineIds.length > 0 then
          match o.fetchLinesByIds with
          | Except.error e => Except.error e
          | Except.ok linesRes => Except.ok linesRes
        else fallbackLines o

/-- The numeric value behind JS `Number(x).toFixed(2)` (the string
formatting itself is not modelled): round to 2 decimal places. -/
def toFixed2 (q : ℚ) : ℚ := (round (q * 100) : ℚ) / 100

/-- A normalized line item of the invoice response. `price_unit` and
`price_subtotal` carry the numeric value of the 2-decimal formatting. -/
structure Item where
  id : Nat
  name : String
  quantity : ℚ
  price_unit : ℚ
  price_subtotal : ℚ
  raw_subtotal : ℚ
  account_id : Option Nat
  display_type : Option String
deriving DecidableEq, Repr

/-- `(line.product_id && line.product_id[1]) || line.name || 'Item'`
(JS falsiness: an empty display name falls through). -/
def itemDisplayName (l : MoveLine) : String :=
  let fallback := match l.name with
    | some n => if n ≠ "" then n else "Item"
    | none => "Item"
  match l.product_id with
  | some p => if p.2 ≠ "" then p.2 else fallback
  | none => fallback

/-- The per-line normalization of the invoice branch. -/
def normalizeLine (l : MoveLine) : Item :=
  let qty := l.quantity.getD 0
  let unit := l.price_unit.getD 0
  let disc := (l.discount.getD 0) / 100
  let subtotal := match l.price_subtotal with
    | some s => s
    | none => unit * qty * (1 - disc)
  { id := l.id
    name := itemDisplayName l
    quantity := qty
    price_unit := toFixed2 unit
    price_subtotal := toFixed2 subtotal
    raw_subtotal := subtotal
    account_id := (l.account_id.map Prod.fst)
    display_type := match l.display_type with
      | some dt => if dt ≠ "" then some dt else none
      | none => none }

/-- The invoice branch of the route: missing `id` is a 400; a terminal
retrieval failure is caught and answered with an empty JSON list; otherwise
the retrieved lines are normalized. (`invoiceId` is the raw query-string
value; `none` also stands for the falsy empty string.) -/
def invoiceGET (invoiceId : Option String) (o : RemoteOracle) : ApiResult (List Item) :=
  match invoiceId with
  | none => ApiResult.err 400 "Missing invoice id"
  | some _ =>
    match retrieveLines o with
    | Except.error _ => ApiResult.ok []
    | Except.ok lines => ApiResult.ok (lines.map normalizeLine)

/-! ### Client-side dashboard logic

Two observed variants of the page exist: a calendar-year variant
(`filteredStats` / `chartData` / `deliveryBarData` suffixed `Cal`) and a
financial-year variant (April-March, suffixed `Fin`). -/

/-- The period selector: `'year'` or a month index `0-11` (in the
calendar-year variant `0 = January`; in the financial-year variant
`0 = April`, matching that variant's `MONTHS` array). -/
inductive ViewBy where
  | year : ViewBy
  | month : Nat → ViewBy
deriving DecidableEq, Repr

/-- `Object.values(data.salesByAddress).flatMap(g => g.orders)`. -/
def allOrders (s : List (String × Bucket)) : List OrderSummary :=
  (s.map (fun p => p.2.orders)).flatten

/-- The calendar-year variant's order filter:
the order's calendar year must equal the selected year, and in month view
its `getMonth()` must equal the selected index. -/
def matchesCal (y : Int) (v : ViewBy) (o : OrderSummary) : Bool :=
  if o.date.year ≠ y then false
  else match v with
    | ViewBy.year => true
    | ViewBy.month m => o.date.month == m

/-- `financialYear` of a date in the financial-year variant:
`orderMonth >= 3 ? orderYear : orderYear - 1` (April start). -/
def financialYear (d : JsDate) : Int :=
  if d.month ≥ 3 then d.year else d.year - 1

/-- The financial-year variant's order filter: financial year must equal
the selected year; in month view `(orderMonth + 9) % 12` (0 = April) must
equal the selected index. -/
def matchesFin (y : Int) (v : ViewBy) (o : OrderSummary) : Bool :=
  if financialYear o.date ≠ y then false
  else match v with
    | ViewBy.year => true
    | ViewBy.month m => (o.date.month + 9) % 12 == m

/-- The `filteredStats` memo's value `{ revenue, orders, avg }`. -/
structure FilteredStats where
  revenue : ℚ
  orders : Nat
  avg : ℚ
deriving DecidableEq, Repr

/-- The client-side KPI recomputation over a period filter `sel`
(both variants share this shape; they differ only in the filter). -/
def filteredStatsWith (sel : OrderSummary → Bool) (s : List (String × Bucket)) :
    FilteredStats :=
  let filteredOrders := (allOrders s).filter sel
  let revenue := (filteredOrders.map (fun o => o.amount)).sum
  let count := filteredOrders.length
  { revenue := revenue, orders := count,
    avg := if count > 0 then revenue / (count : ℚ) else 0 }

/-- `filteredStats` of the calendar-year variant. -/
def filteredStatsCal (s : List (String × Bucket)) (y : Int) (v : ViewBy) : FilteredStats :=
  filteredStatsWith (matchesCal y v) s

/-- `filteredStats` of the financial-year variant. -/
def filteredStatsFin (s : List (String × Bucket)) (y : Int) (v : ViewBy) : FilteredStats :=
  filteredStatsWith (matchesFin y v) s

/-! ### Chart data -/

/-- The Gregorian leap-year rule, as implemented by the JS `Date`
arithmetic `new Date(year, month + 1, 0).getDate()` relies on. -/
def isLeapYear (y : Int) : Bool :=
  (y % 4 == 0 && y % 100 != 0) || (y % 400 == 0)

/-- `new Date(year, month + 1, 0).getDate()`: the number of days of month
`m` (0-based) of year `y`. -/
def daysInMonth (y : Int) (m : Nat) : Nat :=
  if m = 1 then (if isLeapYear y then 29 else 28)
  else if m = 3 ∨ m = 5 ∨ m = 8 ∨ m = 10 then 30
  else 31

/-- The twelve short month names produced by
`d.toLocaleString('default', { month: 'short' })` (and by
`MONTHS.map(m => m.substring(0, 3))` in the calendar-year variant). -/
def monthShortNames : List String :=
  ["Jan", "Feb", "Mar", "Apr", "May", "Jun",
   "Jul", "Aug", "Sep", "Oct", "Nov", "Dec"]

/-- The short name of a date's `getMonth()` value. -/
def shortMonthName (m : Nat) : String := monthShortNames.getD m "Invalid Date"

/-- `MONTHS.map(m => m.substring(0, 3))` in the financial-year variant,
whose `MONTHS` array runs April through March. -/
def finMonthShortNames : List String :=
  ["Apr", "May", "Jun", "Jul", "Aug", "Sep",
   "Oct", "Nov", "Dec", "Jan", "Feb", "Mar"]

/-- `grouped[k] += v` on a string-keyed record with (unique) keys,
modelled positionally: add `v` at the entry whose key is `k`. (In the
code the key is always one of the pre-initialized bucket keys.) -/
def addToKey (g : List (String × ℚ)) (k : String) (v : ℚ) : List (String × ℚ) :=
  g.map (fun p => if p.1 = k then (p.1, p.2 + v) else p)

/-- `grouped[k]` (0 for an absent key; the code only reads keys it
initialized). -/
def lookupD (g : List (String × ℚ)) (k : String) : ℚ :=
  ((g.find? (fun p => p.1 == k)).map (fun p => p.2)).getD 0

/-- One `allOrders.forEach` step of a chart aggregation: when the order
passes the period filter, add its amount to its bucket. -/
def chartStep (sel : OrderSummary → Bool) (key : OrderSummary → String)
    (g : List (String × ℚ)) (o : OrderSummary) : List (String × ℚ) :=
  if sel o then addToKey g (key o) o.amount else g

/-- The whole `forEach` loop over `allOrders`. -/
def chartFold (sel : OrderSummary → Bool) (key : OrderSummary → String)
    (orders : List OrderSummary) (g : List (String × ℚ)) : List (String × ℚ) :=
  orders.foldl (chartStep sel key) g

/-- `chartData` of the calendar-year variant: in month view, one zero
bucket per day `1..daysInMonth` then accumulate the selected orders by
`getDate()`; in year view, one zero bucket per short month name, then
`shortMonths.map(m => ({ name: m, value: grouped[m] }))`. -/
def chartDataCal (s : List (String × Bucket)) (y : Int) (v : ViewBy) :
    List (String × ℚ) :=
  let orders := allOrders s
  match v with
  | ViewBy.month m =>
    let dim := daysInMonth y m
    let init := (List.range dim).map (fun i => (Nat.repr (i + 1), (0 : ℚ)))
    chartFold (fun o => o.date.year == y && o.date.month == m)
      (fun o => Nat.repr o.date.day) orders init
  | ViewBy.year =>
    let init := monthShortNames.map (fun mn => (mn, (0 : ℚ)))
    let grouped := chartFold (fun o => o.date.year == y)
      (fun o => shortMonthName o.date.month) orders init
    monthShortNames.map (fun mn => (mn, lookupD grouped mn))

/-- `chartData` of the financial-year variant: in month view the selector
index `m` (0 = April) is mapped to `actualMonth = (m + 3) % 12` and
`actualYear = m >= 9 ? y + 1 : y`, then one zero bucket per day of that
month; in year view one zero bucket per financial-order short month name
(April first), accumulating orders of financial year `y`. -/
def chartDataFin (s : List (String × Bucket)) (y : Int) (v : ViewBy) :
    List (String × ℚ) :=
  let orders := allOrders s
  match v with
  | ViewBy.month m =>
    let actualMonth := (m + 3) % 12
    let actualYear : Int := if m ≥ 9 then y + 1 else y
    let dim := daysInMonth actualYear actualMonth
    let init := (List.range dim).map (fun i => (Nat.repr (i + 1), (0 : ℚ)))
    chartFold (fun o => o.date.year == actualYear && o.date.month == actualMonth)
      (fun o => Nat.repr o.date.day) orders init
  | ViewBy.year =>
    let init := finMonthShortNames.map (fun mn => (mn, (0 : ℚ)))
    let grouped := chartFold (fun o => financialYear o.date == y)
      (fun o => shortMonthName o.date.month) orders init
    finMonthShortNames.map (fun mn => (mn, lookupD grouped mn))

/-! ### Sales-by-address bar data -/

/-- JS whitespace as matched by `\s` and trimmed by `trim()` (the ASCII
part, which is all the data can contain here). -/
def isJsSpace (c : Char) : Bool :=
  c = ' ' ∨ c = '\t' ∨ c = '\n' ∨ c = '\r' ∨ c = '\x0b' ∨ c = '\x0c'

/-- `trim()` on a character list. -/
def jsTrimList (s : List Char) : List Char :=
  ((s.dropWhile isJsSpace).reverse.dropWhile isJsSpace).reverse

/-- `.replace(/^,\s*/, '')`: drop one leading comma and the whitespace
after it. -/
def dropCommaWs (s : List Char) : List Char :=
  match s with
  | ',' :: rest => rest.dropWhile isJsSpace
  | _ => s

/-- The address-cleaning step of `deliveryBarData`:
`if (customerName && cleanName.startsWith(customerName))
   cleanName = cleanName.replace(customerName, '').replace(/^,\s*/, '').trim();`
(`replace` removes the first occurrence, which under `startsWith` is the
leading prefix of length `customerName.length`). -/
def cleanAddress (customerName nm : String) : String :=
  if customerName ≠ "" ∧ customerName.toList.isPrefixOf nm.toList then
    ⟨jsTrimList (dropCommaWs (nm.toList.drop customerName.toList.length))⟩
  else nm

/-- `if (cleanName.length < 2) cleanName = 'Main Office';` -/
def relabeledAddress (customerName nm : String) : String :=
  let c := cleanAddress customerName nm
  if c.length < 2 then "Main Office" else c

/-- `transformAddressName`: the part before the first comma, truncated to
33 characters plus an ellipsis when longer than 35. -/
def transformAddressName (addr : String) : String :=
  let firstPart := addr.toList.takeWhile (fun c => c ≠ ',')
  if firstPart.length > 35 then ⟨firstPart.take 33 ++ "...".toList⟩ else ⟨firstPart⟩

/-- The display label `transformAddressName(cleanName)` computed inside
`deliveryBarData` for a raw address key. -/
def addressLabel (customerName nm : String) : String :=
  transformAddressName (relabeledAddress customerName nm)

/-- One bar of the sales-by-address chart:
`{ name: transformAddressName(cleanName), fullName: name, value }` (the
financial-year variant additionally carries the filtered orders, which no
claim concerns). -/
structure BarDatum where
  name : String
  fullName : String
  value : ℚ
deriving DecidableEq, Repr

/-- Insertion step of `.sort((a, b) => b.value - a.value)` (descending by
value; only order-insensitive properties are proved about the result). -/
def insertDesc (x : BarDatum) : List BarDatum → List BarDatum
  | [] => [x]
  | y :: ys => if y.value < x.value then x :: y :: ys else y :: insertDesc x ys

/-- `.sort((a, b) => b.value - a.value)` as an insertion sort. -/
def sortByValueDesc : List BarDatum → List BarDatum
  | [] => []
  | x :: xs => insertDesc x (sortByValueDesc xs)

/-- The `aggregated` record of `deliveryBarData` (both variants): for each
address of `salesByAddress` in order, sum the amounts of the orders passing
the period filter and keep the address only when `total > 0`. -/
def aggregatedTotals (sel : OrderSummary → Bool) (s : List (String × Bucket)) :
    List (String × ℚ) :=
  s.foldl (fun acc p =>
    let total := ((p.2.orders.filter sel).map (fun o => o.amount)).sum
    if 0 < total then acc ++ [(p.1, total)] else acc) []

/-- `deliveryBarData` over a period filter: aggregate, relabel, sort. -/
def deliveryBarDataWith (sel : OrderSummary → Bool) (customer : String)
    (s : List (String × Bucket)) : List BarDatum :=
  sortByValueDesc ((aggregatedTotals sel s).map (fun p =>
    { name := addressLabel customer p.1, fullName := p.1, value := p.2 }))

/-- `deliveryBarData` of the calendar-year variant. -/
def deliveryBarDataCal (customer : String) (s : List (String × Bucket))
    (y : Int) (v : ViewBy) : List BarDatum :=
  deliveryBarDataWith (matchesCal y v) customer s

/-- `deliveryBarData` of the financial-year variant. -/
def deliveryBarDataFin (customer : String) (s : List (String × Bucket))
    (y : Int) (v : ViewBy) : List BarDatum :=
  deliveryBarDataWith (matchesFin y v) customer s

/-! ### Derived notions and sample data used by the statements -/

/-- Internal consistency of a `salesByAddress` bucket: its `count` is the
length of its `orders` array and its `total` the sum of their amounts. -/
def consistentBucket (b : Bucket) : Prop :=
  b.count = b.orders.length ∧ b.total = (b.orders.map (fun o => o.amount)).sum

/-- Sample posted invoice: total 100.00, May 10 2026, shipping to
"ACME, North". -/
def sampleInv1 : OdooInvoice :=
  ⟨101, "INV/2026/001", ⟨2026, 4, 10⟩, 100, "out_invoice", some (7, "ACME, North"), "posted"⟩

/-- Sample posted invoice: total 50.00, May 12 2026, shipping to
"ACME, North". -/
def sampleInv2 : OdooInvoice :=
  ⟨102, "INV/2026/002", ⟨2026, 4, 12⟩, 50, "out_invoice", some (7, "ACME, North"), "posted"⟩

/-- Sample posted credit note: total -30.00, May 20 2026, shipping to
"ACME, South". -/
def sampleRefund : OdooInvoice :=
  ⟨103, "RINV/2026/001", ⟨2026, 4, 20⟩, -30, "out_refund", some (8, "ACME, South"), "posted"⟩

/-- A remote oracle on which every read fails. -/
def failingOracle : RemoteOracle :=
  { fetchMove := Except.error "XML-RPC fault"
    fetchLinesByIds := Except.error "XML-RPC fault"
    fetchSrvFiltered := Except.error "XML-RPC fault"
    fetchRaw := Except.error "XML-RPC fault" }

/-- A remote oracle describing an invoice with zero line items: the tier-1
move row has an empty `invoice_line_ids` and the tier-2 filtered search
returns no rows. -/
def emptyInvoiceOracle : RemoteOracle :=
  { fetchMove := Except.ok [⟨some []⟩]
    fetchLinesByIds := Except.ok []
    fetchSrvFiltered := Except.ok []
    fetchRaw := Except.ok [] }

/-- Sample order summaries as the stats branch would push them for the
sample invoices above. -/
def sampleOrder1 : OrderSummary := ⟨101, "INV/2026/001", ⟨2026, 4, 10⟩, 100⟩

/-- Second sample order summary ("ACME, North", May 12 2026, 50.00). -/
def sampleOrder2 : OrderSummary := ⟨102, "INV/2026/002", ⟨2026, 4, 12⟩, 50⟩

/-- Sample refund order summary ("ACME, South", May 20 2026, -30.00). -/
def sampleOrder3 : OrderSummary := ⟨103, "RINV/2026/001", ⟨2026, 4, 20⟩, -30⟩

/-- The bucket of address "ACME, North" for the sample data. -/
def northBucket : Bucket := ⟨2, 150, [sampleOrder1, sampleOrder2]⟩

/-- The bucket of address "ACME, South" for the sample data (it contains
only the credit note, so its total is negative). -/
def southBucket : Bucket := ⟨1, -30, [sampleOrder3]⟩

/-- A sample `salesByAddress` payload as the client receives it. -/
def sampleSales : List (String × Bucket) :=
  [("ACME, North", northBucket), ("ACME, South", southBucket)]

/-! ## Helper lemmas -/

/-- `Math.abs` is non-negative. -/
theorem jsMathAbs_nonneg (q : ℚ) : 0 ≤ jsMathAbs q := by
  rw [jsMathAbs]
  split <;> linarith

/-- `Math.abs` of a non-zero rational is positive. -/
theorem jsMathAbs_pos (q : ℚ) (h : q ≠ 0) : 0 < jsMathAbs q := by
  rw [jsMathAbs]
  rcases lt_trichotomy q 0 with h' | h' | h'
  · simp [h']
  · exact absurd h' h
  · simp [not_lt.mpr (le_of_lt h'), h']


/-- `bumpBucket` adds `amt` to the sum of all bucket totals. -/
theorem bumpBucket_total_sum (m : List (String × Bucket)) (k : String)
    (e : OrderSummary) (amt : ℚ) :
    ((bumpBucket m k e amt).map (fun p => p.2.total)).sum
      = ((m.map (fun p => p.2.total)).sum) + amt := by
  induction m with
  | nil => simp [bumpBucket]
  | cons hd tl ih =>
    obtain ⟨k', b⟩ := hd
    by_cases h : k' = k
    · simp [bumpBucket, h, add_assoc, add_comm]
    · simp [bumpBucket, h, ih, add_assoc]

/-- `bumpBucket` adds 1 to the sum of all bucket counts. -/
theorem bumpBucket_count_sum (m : List (String × Bucket)) (k : String)
    (e : OrderSummary) (amt : ℚ) :
    ((bumpBucket m k e amt).map (fun p => p.2.count)).sum
      = ((m.map (fun p => p.2.count)).sum) + 1 := by
  induction m with
  | nil => simp [bumpBucket]
  | cons hd tl ih =>
    obtain ⟨k', b⟩ := hd
    by_cases h : k' = k
    · simp [bumpBucket, h]; omega
    · simp [bumpBucket, h, ih]; omega

/-- `bumpBucket` preserves bucket consistency when the pushed entry's
amount is the accumulated amount. -/
theorem bumpBucket_consistent (m : List (String × Bucket)) (k : String)
    (e : OrderSummary) (amt : ℚ) (he : e.amount = amt)
    (hm : ∀ p ∈ m, consistentBucket p.2) :
    ∀ p ∈ bumpBucket m k e amt, consistentBucket p.2 := by
  induction m with
  | nil =>
    intro p hp
    simp [bumpBucket] at hp
    subst hp
    simp [consistentBucket, he]
  | cons hd tl ih =>
    obtain ⟨k', b⟩ := hd
    intro p hp
    by_cases h : k' = k
    · simp [bumpBucket, h] at hp
      rcases hp with hp | hp
      · subst hp
        have hb := hm (k', b) (by simp)
        simp [consistentBucket] at hb ⊢
        constructor
        · simpa using hb.1
        · simp [hb.2, he]
      · exact hm p (by simp [hp])
    · simp [bumpBucket, h] at hp
      rcases hp with hp | hp
      · subst hp; exact hm (k', b) (by simp)
      · exact ih (fun q hq => hm q (by simp [hq])) p hp

/-- Characterization of the `invoices.forEach` fold of the stats branch:
revenue accumulates the sign-adjusted amounts, the bucket totals track the
revenue, the bucket counts track the number of processed invoices, and
bucket consistency is preserved. -/
theorem statsFold_spec (invs : List OdooInvoice) (st : ℚ × List (String × Bucket)) :
    (invs.foldl statsStep st).1 = st.1 + (invs.map signAdjustedAmount).sum
  ∧ (((invs.foldl statsStep st).2.map (fun p => p.2.total)).sum
      = ((st.2.map (fun p => p.2.total)).sum) + (invs.map signAdjustedAmount).sum)
  ∧ (((invs.foldl statsStep st).2.map (fun p => p.2.count)).sum
      = ((st.2.map (fun p => p.2.count)).sum) + invs.length)
  ∧ ((∀ p ∈ st.2, consistentBucket p.2) →
      ∀ p ∈ (invs.foldl statsStep st).2, consistentBucket p.2) := by
  induction invs generalizing st with
  | nil => simp
  | cons inv rest ih =>
    have hstep : (inv :: rest).foldl statsStep st = rest.foldl statsStep (statsStep st inv) := rfl
    obtain ⟨ih1, ih2, ih3, ih4⟩ := ih (statsStep st inv)
    refine ⟨?_, ?_, ?_, ?_⟩
    · rw [hstep, ih1]; simp [statsStep, add_assoc]
    · rw [hstep, ih2]
      simp [statsStep, bumpBucket_total_sum, add_assoc]
    · rw [hstep, ih3]
      simp [statsStep, bumpBucket_count_sum]; omega
    · intro hst
      rw [hstep]
      exact ih4 (bumpBucket_consistent st.2 (addressNameOf inv) _ _ rfl hst)

/-- `addToKey` on a keyed map of values of a function of the key. -/
theorem addToKey_map (names : List String) (f : String → ℚ) (k : String) (v : ℚ) :
    addToKey (names.map (fun n => (n, f n))) k v
      = names.map (fun n => (n, f n + if n = k then v else 0)) := by
  simp only [addToKey, List.map_map]
  refine List.map_congr_left ?_
  intro n _
  by_cases h : n = k <;> simp [h]

/-- The chart `forEach` over pre-initialized buckets: each bucket ends at
its initial value plus the sum of the amounts of the selected orders whose
key is the bucket's key. -/
theorem chartFold_map (sel : OrderSummary → Bool) (key : OrderSummary → String)
    (orders : List OrderSummary) (names : List String) (f : String → ℚ) :
    chartFold sel key orders (names.map (fun n => (n, f n)))
      = names.map (fun n => (n, f n +
          ((orders.filter (fun o => sel o && (key o == n))).map (fun o => o.amount)).sum)) := by
  induction orders generalizing f with
  | nil => simp [chartFold]
  | cons o os ih =>
    have hstep : chartFold sel key (o :: os) (names.map (fun n => (n, f n)))
        = chartFold sel key os (chartStep sel key (names.map (fun n => (n, f n))) o) := rfl
    by_cases hsel : sel o
    · have hkey : chartStep sel key (names.map (fun n => (n, f n))) o
          = names.map (fun n => (n, f n + if n = key o then o.amount else 0)) := by
        simp [chartStep, hsel, addToKey_map]
      rw [hstep, hkey, ih (fun n => f n + if n = key o then o.amount else 0)]
      refine List.map_congr_left ?_
      intro n _
      by_cases h : key o = n
      · simp [List.filter_cons, hsel, h, add_assoc]
      · have h' : n ≠ key o := fun hn => h hn.symm
        simp [List.filter_cons, hsel, h, h']
    · rw [hstep]
      have hkey : chartStep sel key (names.map (fun n => (n, f n))) o
          = names.map (fun n => (n, f n)) := by simp [chartStep, hsel]
      rw [hkey, ih f]
      refine List.map_congr_left ?_
      intro n _
      simp [List.filter_cons, hsel]

/-- Reading back a key of a keyed map of values of a function of the key. -/
theorem lookupD_map_mem (names : List String) (g : String → ℚ) (n : String)
    (hn : n ∈ names) :
    lookupD (names.map (fun x => (x, g x))) n = g n := by
  induction names with
  | nil => cases hn
  | cons x xs ih =>
    by_cases h : x = n
    · subst h; simp [lookupD]
    · have hx : (x == n) = false := by simp [h]
      have hn' : n ∈ xs := by
        rcases List.mem_cons.mp hn with h' | h'
        · exact absurd h'.symm h
        · exact h'
      simpa [lookupD, List.find?, hx] using ih hn'

/-- `daysInMonth` never exceeds 31. -/
theorem daysInMonth_le_31 (y : Int) (m : Nat) : daysInMonth y m ≤ 31 := by
  rw [daysInMonth]
  split
  · split <;> norm_num
  · split <;> norm_num

/-- Decimal representations of two month days agree exactly when the days
do (days are at most 31). -/
theorem natRepr_beq_of_le_31 (a b : Nat) (ha : a ≤ 31) (hb : b ≤ 31) :
    (Nat.repr a == Nat.repr b) = (a == b) := by
  have hinj : ∀ a' < 32, ∀ b' < 32, Nat.repr a' = Nat.repr b' → a' = b' := by decide
  by_cases h : a = b
  · subst h; simp
  · have hr : Nat.repr a ≠ Nat.repr b :=
      fun hr => h (hinj a (by omega) b (by omega) hr)
    simp [h, hr]

/-- Short month names of two in-range month indices agree exactly when the
indices do. -/
theorem shortMonthName_beq (a b : Nat) (ha : a < 12) (hb : b < 12) :
    (shortMonthName a == shortMonthName b) = (a == b) := by
  have hinj : ∀ a' < 12, ∀ b' < 12, shortMonthName a' = shortMonthName b' → a' = b' := by decide
  by_cases h : a = b
  · subst h; simp
  · have hr : shortMonthName a ≠ shortMonthName b := fun hr => h (hinj a ha b hb hr)
    simp [h, hr]

/-- Day-bucketed chart aggregation: starting from one zero bucket per day
of the month, day `i + 1`'s bucket ends at the sum of the amounts of the
selected orders dated on that day. -/
theorem chartFold_days (orders : List OrderSummary) (Y : Int) (M : Nat)
    (hday : ∀ o ∈ orders, o.date.day ≤ 31) :
    chartFold (fun o => o.date.year == Y && o.date.month == M)
        (fun o => Nat.repr o.date.day) orders
        ((List.range (daysInMonth Y M)).map (fun i => (Nat.repr (i + 1), (0 : ℚ))))
      = (List.range (daysInMonth Y M)).map (fun i =>
          (Nat.repr (i + 1), ((orders.filter (fun o =>
             (o.date.year == Y && o.date.month == M) && (o.date.day == i + 1))).map
               (fun o => o.amount)).sum)) := by
  have h0 : ((List.range (daysInMonth Y M)).map (fun i => (Nat.repr (i + 1), (0 : ℚ))))
      = ((List.range (daysInMonth Y M)).map (fun i => Nat.repr (i + 1))).map
          (fun n => (n, (0 : ℚ))) := by
    simp [List.map_map]
  rw [h0, chartFold_map, List.map_map]
  refine List.map_congr_left ?_
  intro i hi
  have hi' : i < daysInMonth Y M := List.mem_range.mp hi
  have hle : i + 1 ≤ 31 := by
    have := daysInMonth_le_31 Y M; omega
  have hfil : orders.filter (fun o => (o.date.year == Y && o.date.month == M)
        && (Nat.repr o.date.day == Nat.repr (i + 1)))
      = orders.filter (fun o => (o.date.year == Y && o.date.month == M)
        && (o.date.day == i + 1)) := by
    refine List.filter_congr ?_
    intro o ho
    rw [natRepr_beq_of_le_31 o.date.day (i + 1) (hday o ho) hle]
  simp only [Function.comp]
  rw [← hfil]
  simp

/-- Month-bucketed chart aggregation: starting from one zero bucket per
(reordered) short month name and reading the buckets back in that order,
bucket `i` ends at the sum of the amounts of the selected orders whose
month is the bucket's month. -/
theorem chartFold_year (orders : List OrderSummary) (sel : OrderSummary → Bool)
    (mIdx : Nat → Nat) (hIdx : ∀ i, i < 12 → mIdx i < 12)
    (hmonth : ∀ o ∈ orders, o.date.month < 12) :
    ((List.range 12).map (fun i => shortMonthName (mIdx i))).map (fun mn =>
        (mn, lookupD (chartFold sel (fun o => shortMonthName o.date.month) orders
          (((List.range 12).map (fun i => shortMonthName (mIdx i))).map
            (fun mn => (mn, (0 : ℚ))))) mn))
      = (List.range 12).map (fun i => (shortMonthName (mIdx i),
          ((orders.filter (fun o => sel o && (o.date.month == mIdx i))).map
            (fun o => o.amount)).sum)) := by
  rw [chartFold_map]
  have hlook : ((List.range 12).map (fun i => shortMonthName (mIdx i))).map (fun mn =>
        (mn, lookupD (((List.range 12).map (fun i => shortMonthName (mIdx i))).map
          (fun n => (n, 0 + ((orders.filter (fun o => sel o &&
            (shortMonthName o.date.month == n))).map (fun o => o.amount)).sum))) mn))
      = ((List.range 12).map (fun i => shortMonthName (mIdx i))).map (fun mn =>
        (mn, 0 + ((orders.filter (fun o => sel o &&
            (shortMonthName o.date.month == mn))).map (fun o => o.amount)).sum)) := by
    refine List.map_congr_left ?_
    intro mn hmn
    rw [lookupD_map_mem _ _ _ hmn]
  rw [hlook, List.map_map]
  refine List.map_congr_left ?_
  intro i hi
  have hi' : i < 12 := List.mem_range.mp hi
  have hfil : orders.filter (fun o => sel o
        && (shortMonthName o.date.month == shortMonthName (mIdx i)))
      = orders.filter (fun o => sel o && (o.date.month == mIdx i)) := by
    refine List.filter_congr ?_
    intro o ho
    rw [shortMonthName_beq o.date.month (mIdx i) (hmonth o ho) (hIdx i hi')]
  simp only [Function.comp]
  rw [← hfil]
  simp

/-- Membership in an insertion step of the value-descending sort. -/
theorem mem_insertDesc (x a : BarDatum) (l : List BarDatum) :
    a ∈ insertDesc x l ↔ a = x ∨ a ∈ l := by
  induction l with
  | nil => simp [insertDesc]
  | cons y ys ih =>
    by_cases h : y.value < x.value
    · simp [insertDesc, h]
    · simp [insertDesc, h, ih]
      tauto

/-- Sorting by descending value preserves membership. -/
theorem mem_sortByValueDesc (a : BarDatum) (l : List BarDatum) :
    a ∈ sortByValueDesc l ↔ a ∈ l := by
  induction l with
  | nil => simp [sortByValueDesc]
  | cons x xs ih => simp [sortByValueDesc, mem_insertDesc, ih]

/-- The `aggregated` fold of `deliveryBarData`, with an arbitrary
accumulator: it appends exactly the addresses whose filtered total is
positive, keyed with that total. -/
theorem aggregated_foldl (sel : OrderSummary → Bool) (s : List (String × Bucket))
    (acc0 : List (String × ℚ)) :
    s.foldl (fun acc p =>
        let total := ((p.2.orders.filter sel).map (fun o => o.amount)).sum
        if 0 < total then acc ++ [(p.1, total)] else acc) acc0
      = acc0 ++ s.filterMap (fun p =>
        let total := ((p.2.orders.filter sel).map (fun o => o.amount)).sum
        if 0 < total then some (p.1, total) else none) := by
  induction s generalizing acc0 with
  | nil => simp
  | cons p ps ih =>
    rw [List.foldl_cons, ih]
    by_cases h : 0 < ((p.2.orders.filter sel).map (fun o => o.amount)).sum
    · simp [h]
    · simp [h]

/-- `aggregatedTotals` keeps exactly the positive filtered totals, in
order. -/
theorem aggregatedTotals_eq (sel : OrderSummary → Bool) (s : List (String × Bucket)) :
    aggregatedTotals sel s = s.filterMap (fun p =>
        let total := ((p.2.orders.filter sel).map (fun o => o.amount)).sum
        if 0 < total then some (p.1, total) else none) := by
  rw [aggregatedTotals, aggregated_foldl]
  simp

/-- Assoc-list values are determined by their key when the keys are
distinct. -/
theorem nodup_keys_val_eq {α β : Type} (l : List (α × β))
    (h : (l.map Prod.fst).Nodup) (k : α) (a b : β)
    (ha : (k, a) ∈ l) (hb : (k, b) ∈ l) : a = b := by
  induction l with
  | nil => cases ha
  | cons p ps ih =>
    rw [List.map_cons, List.nodup_cons] at h
    rcases List.mem_cons.mp ha with ha' | ha' <;> rcases List.mem_cons.mp hb with hb' | hb'
    · exact ((Prod.mk.injEq _ _ _ _).mp (ha'.trans hb'.symm)).2
    · exfalso
      apply h.1
      rw [← (congrArg Prod.fst ha' : k = p.1)]
      exact List.mem_map.mpr ⟨(k, b), hb', rfl⟩
    · exfalso
      apply h.1
      rw [← (congrArg Prod.fst hb' : k = p.1)]
      exact List.mem_map.mpr ⟨(k, a), ha', rfl⟩
    · exact ih h.2 ha' hb'

/-- The calendar-order short month names are the short names of the month
indices 0-11 in order. -/
theorem monthShortNames_eq :
    monthShortNames = (List.range 12).map (fun i => shortMonthName i) := by decide

/-- The financial-order short month names are the short names of the month
indices `(i + 3) % 12` for `i = 0..11`. -/
theorem finMonthShortNames_eq :
    finMonthShortNames = (List.range 12).map (fun i => shortMonthName ((i + 3) % 12)) := by
  decide

/-- Every bar of `deliveryBarData` is labelled by `addressLabel` applied
to its raw address key. -/
theorem deliveryBarDataWith_label (sel : OrderSummary → Bool) (c : String)
    (s : List (String × Bucket)) :
    ∀ e ∈ deliveryBarDataWith sel c s, e.name = addressLabel c e.fullName := by
  intro e he
  rw [deliveryBarDataWith, mem_sortByValueDesc] at he
  rcases List.mem_map.mp he with ⟨p, _, rfl⟩
  rfl

/-- An address of the payload appears among the bars exactly when the sum
of its filtered order amounts is positive. -/
theorem deliveryBarDataWith_mem_iff (sel : OrderSummary → Bool) (c : String)
    (s : List (String × Bucket)) (name : String) (b : Bucket)
    (hnodup : (s.map Prod.fst).Nodup) (hmem : (name, b) ∈ s) :
    (∃ e ∈ deliveryBarDataWith sel c s, e.fullName = name) ↔
      0 < ((b.orders.filter sel).map (fun o => o.amount)).sum := by
  constructor
  · rintro ⟨e, he, hname⟩
    rw [deliveryBarDataWith, mem_sortByValueDesc] at he
    rcases List.mem_map.mp he with ⟨q, hq, rfl⟩
    rw [aggregatedTotals_eq] at hq
    rcases List.mem_filterMap.mp hq with ⟨p, hp, hfp⟩
    simp only at hfp
    by_cases hT : 0 < ((p.2.orders.filter sel).map (fun o => o.amount)).sum
    · rw [if_pos hT] at hfp
      have hpair := Option.some.inj hfp
      have hp1 : p.1 = name := by
        have h1 : p.1 = q.1 := congrArg Prod.fst hpair
        rw [h1]
        exact hname
      have hpmem : (name, p.2) ∈ s := by
        have : (p.1, p.2) = p := rfl
        rw [← hp1]
        simpa [this] using hp
      have hval : p.2 = b := nodup_keys_val_eq s hnodup name p.2 b hpmem hmem
      rw [← hval]
      exact hT
    · rw [if_neg hT] at hfp
      cases hfp
  · intro hT
    refine ⟨{ name := addressLabel c name, fullName := name,
              value := ((b.orders.filter sel).map (fun o => o.amount)).sum }, ?_, rfl⟩
    rw [deliveryBarDataWith, mem_sortByValueDesc]
    refine List.mem_map.mpr ⟨(name, ((b.orders.filter sel).map (fun o => o.amount)).sum), ?_, rfl⟩
    rw [aggregatedTotals_eq]
    refine List.mem_filterMap.mpr ⟨(name, b), hmem, ?_⟩
    simp only [if_pos hT]

/-! ## Claim theorems -/

/-- C1 (counterexample): with customer reference "ACME-01" resolving to a
partner and three posted documents totalling 100.00, 50.00 and a credit
note of -30.00, the stats operation does NOT return revenue 180.00 and
average 60.00: the credit note is accumulated as -30.00, so revenue is
120.00 and the average is 40.00. -/
theorem stats_concrete_abs_claim_false :
    statsGET (some "ACME-01") [⟨42, "ACME"⟩] [sampleInv1, sampleInv2, sampleRefund]
      = ApiResult.ok (statsProcess "ACME" [sampleInv1, sampleInv2, sampleRefund])
  ∧ (statsProcess "ACME" [sampleInv1, sampleInv2, sampleRefund]).kpi.revenue ≠ 180
  ∧ (statsProcess "ACME" [sampleInv1, sampleInv2, sampleRefund]).kpi.avgOrderValue ≠ 60 := by
  have hrev : (statsProcess "ACME" [sampleInv1, sampleInv2, sampleRefund]).kpi.revenue = 120 := by
    norm_num [statsProcess, statsStep, signAdjustedAmount, jsMathAbs,
      sampleInv1, sampleInv2, sampleRefund,
      show ("out_invoice" : String) ≠ "out_refund" from by decide]
  have havg : (statsProcess "ACME" [sampleInv1, sampleInv2, sampleRefund]).kpi.avgOrderValue
      = 40 := by
    norm_num [statsProcess, statsStep, signAdjustedAmount, jsMathAbs,
      sampleInv1, sampleInv2, sampleRefund,
      show ("out_invoice" : String) ≠ "out_refund" from by decide]
  refine ⟨rfl, ?_, ?_⟩
  · rw [hrev]; norm_num
  · rw [havg]; norm_num

/-- C1 (amended): with customer reference "ACME-01" resolving to a partner
and three posted documents totalling 100.00, 50.00 and a credit note of
-30.00, the stats operation returns revenue 120.00 (the credit note
subtracts its absolute value), invoice count 3 and average 40.00. -/
theorem stats_concrete_revenue_120 :
    statsGET (some "ACME-01") [⟨42, "ACME"⟩] [sampleInv1, sampleInv2, sampleRefund]
      = ApiResult.ok (statsProcess "ACME" [sampleInv1, sampleInv2, sampleRefund])
  ∧ (statsProcess "ACME" [sampleInv1, sampleInv2, sampleRefund]).kpi.revenue = 120
  ∧ (statsProcess "ACME" [sampleInv1, sampleInv2, sampleRefund]).kpi.orders = 3
  ∧ (statsProcess "ACME" [sampleInv1, sampleInv2, sampleRefund]).kpi.avgOrderValue = 40 := by
  refine ⟨rfl, ?_, rfl, ?_⟩
  · norm_num [statsProcess, statsStep, signAdjustedAmount, jsMathAbs,
      sampleInv1, sampleInv2, sampleRefund,
      show ("out_invoice" : String) ≠ "out_refund" from by decide]
  · norm_num [statsProcess, statsStep, signAdjustedAmount, jsMathAbs,
      sampleInv1, sampleInv2, sampleRefund,
      show ("out_invoice" : String) ≠ "out_refund" from by decide]

/-- C2 (counterexample): a single posted credit note of total -30.00
contributes -30.00 — not the absolute value 30.00 — to the accumulated
revenue, to its per-address bucket total, and to its normalized
`recentInvoices` amount; in particular the contribution is negative. -/
theorem refund_contribution_not_absolute :
    (statsProcess "ACME" [sampleRefund]).kpi.revenue = -30
  ∧ ((statsProcess "ACME" [sampleRefund]).salesByAddress.map (fun p => p.2.total)) = [-30]
  ∧ ((statsProcess "ACME" [sampleRefund]).recentInvoices.map (fun i => i.amount_total)) = [-30]
  ∧ ¬ (0 ≤ (statsProcess "ACME" [sampleRefund]).kpi.revenue) := by
  have hrev : (statsProcess "ACME" [sampleRefund]).kpi.revenue = -30 := by
    norm_num [statsProcess, statsStep, signAdjustedAmount, jsMathAbs, sampleRefund]
  refine ⟨hrev, ?_, ?_, ?_⟩
  · norm_num [statsProcess, statsStep, bumpBucket, signAdjustedAmount, jsMathAbs, sampleRefund]
  · norm_num [statsProcess, signAdjustedAmount, jsMathAbs, sampleRefund]
  · rw [hrev]; norm_num

/-- C2 (amended): every record's contribution to the accumulated revenue
(and, identically, to its bucket) is the sign-adjusted total: a credit
note contributes the negation of the absolute total (hence a non-positive
amount), every other document the absolute total (hence a non-negative
amount); no final absolute-value step is applied. -/
theorem contribution_sign_adjusted (c : String) (invs : List OdooInvoice) :
    (statsProcess c invs).kpi.revenue = (invs.map signAdjustedAmount).sum
  ∧ (∀ inv : OdooInvoice, inv.move_type = "out_refund" →
      signAdjustedAmount inv = -(jsMathAbs inv.amount_total) ∧ signAdjustedAmount inv ≤ 0)
  ∧ (∀ inv : OdooInvoice, inv.move_type ≠ "out_refund" →
      signAdjustedAmount inv = jsMathAbs inv.amount_total ∧ 0 ≤ signAdjustedAmount inv) := by
  refine ⟨?_, ?_, ?_⟩
  · have h := (statsFold_spec invs (0, [])).1
    simpa [statsProcess] using h
  · intro inv h
    have habs := jsMathAbs_nonneg inv.amount_total
    constructor
    · simp [signAdjustedAmount, h]
    · simp [signAdjustedAmount, h]
      linarith
  · intro inv h
    have habs := jsMathAbs_nonneg inv.amount_total
    constructor
    · simp [signAdjustedAmount, h]
    · simp [signAdjustedAmount, h]
      linarith

/-- C2 witness: the amended statement applied to the sample credit note. -/
theorem contribution_sign_adjusted_witness :
    signAdjustedAmount sampleRefund = -(jsMathAbs sampleRefund.amount_total)
  ∧ signAdjustedAmount sampleRefund ≤ 0 :=
  (contribution_sign_adjusted "ACME" []).2.1 sampleRefund (by decide)

/-- C3: a credit note's contribution to the accumulation is exactly the
negation of what the same document would contribute as an ordinary
invoice, and for a non-zero total the two contributions have strictly
opposite signs. -/
theorem refund_opposite_sign (inv : OdooInvoice) (h : inv.move_type = "out_refund") :
    signAdjustedAmount inv = -(signAdjustedAmount { inv with move_type := "out_invoice" })
  ∧ (inv.amount_total ≠ 0 →
      signAdjustedAmount inv < 0
        ∧ 0 < signAdjustedAmount { inv with move_type := "out_invoice" }) := by
  have hne : ("out_invoice" : String) ≠ "out_refund" := by decide
  constructor
  · simp [signAdjustedAmount, h, hne]
  · intro h0
    have hpos := jsMathAbs_pos inv.amount_total h0
    constructor
    · simp [signAdjustedAmount, h]
      linarith
    · simpa [signAdjustedAmount, hne] using hpos

/-- C3 witness: the opposite-sign statement applied to the sample credit
note (which has the non-zero total -30.00). -/
theorem refund_opposite_sign_witness :
    signAdjustedAmount sampleRefund
      = -(signAdjustedAmount { sampleRefund with move_type := "out_invoice" })
  ∧ signAdjustedAmount sampleRefund < 0 := by
  have h := refund_opposite_sign sampleRefund (by decide)
  exact ⟨h.1, (h.2 (by norm_num [sampleRefund])).1⟩

/-- C4 (counterexample): a missing customer-reference configuration value
is answered with HTTP status 500 — a server-style error, not a 4xx-style
one. -/
theorem missing_customer_ref_is_500 :
    statsGET none [] [] = ApiResult.err 500 "Missing ODOO_CUSTOMER_REF environment variable"
  ∧ (statsGET none [] []).status = 500
  ∧ ¬ is4xxStatus (statsGET none [] []).status := by
  refine ⟨rfl, rfl, ?_⟩
  intro h
  have : ¬ ((500 : Nat) < 500) := by norm_num
  exact this h.2

/-- C4 (amended): a missing customer-reference setting yields a 500-status
error with the descriptive message "Missing ODOO_CUSTOMER_REF environment
variable" (and a missing Odoo connection setting makes `getOdooConfig`
throw "Missing Odoo environment variables", likewise surfaced as a 500);
only a reference that resolves to no partner yields a 4xx-style error,
namely a 404. -/
theorem missing_config_500_missing_customer_404 (partners : List Partner)
    (invs : List OdooInvoice) (ref : String) :
    statsGET none partners invs
      = ApiResult.err 500 "Missing ODOO_CUSTOMER_REF environment variable"
  ∧ statsGET (some ref) [] invs
      = ApiResult.err 404 ("Customer with Ref " ++ ref ++ " not found")
  ∧ is4xxStatus (statsGET (some ref) [] invs).status
  ∧ getOdooConfig none none none none = Except.error "Missing Odoo environment variables" := by
  refine ⟨?_, rfl, ?_, rfl⟩
  · cases partners <;> rfl
  · show is4xxStatus 404
    exact ⟨by norm_num, by norm_num⟩

/-- C5: with an `id` parameter present, the invoice operation always
answers with a successful JSON list; a terminal failure of the line
retrieval at any tier is caught and yields the empty list, and an invoice
whose retrieval yields zero line items likewise yields the empty list. -/
theorem invoice_op_degrades_to_empty (idStr : String) (o : RemoteOracle) :
    (∃ items, invoiceGET (some idStr) o = ApiResult.ok items)
  ∧ (∀ e, retrieveLines o = Except.error e → invoiceGET (some idStr) o = ApiResult.ok [])
  ∧ (retrieveLines o = Except.ok [] → invoiceGET (some idStr) o = ApiResult.ok []) := by
  refine ⟨?_, ?_, ?_⟩
  · cases h : retrieveLines o with
    | error e => exact ⟨[], by simp [invoiceGET, h]⟩
    | ok lines => exact ⟨lines.map normalizeLine, by simp [invoiceGET, h]⟩
  · intro e he
    simp [invoiceGET, he]
  · intro he
    simp [invoiceGET, he]

/-- C5 witness: the statement applied to an oracle whose every remote read
fails, and to an oracle describing an invoice with zero line items. -/
theorem invoice_op_degrades_to_empty_witness :
    invoiceGET (some "150491") failingOracle = ApiResult.ok []
  ∧ invoiceGET (some "150491") emptyInvoiceOracle = ApiResult.ok [] :=
  ⟨(invoice_op_degrades_to_empty "150491" failingOracle).2.1 "XML-RPC fault" rfl,
   (invoice_op_degrades_to_empty "150491" emptyInvoiceOracle).2.2 rfl⟩

/-- C6: both in the stats endpoint's KPI object and in the client-side
filtered recomputation, the average equals revenue divided by the count
when the count is positive and is exactly 0 when the count is 0. -/
theorem avg_guarded_division (c : String) (invs : List OdooInvoice)
    (s : List (String × Bucket)) (y : Int) (v : ViewBy) :
    ((0 < (statsProcess c invs).kpi.orders →
        (statsProcess c invs).kpi.avgOrderValue
          = (statsProcess c invs).kpi.revenue / ((statsProcess c invs).kpi.orders : ℚ))
      ∧ ((statsProcess c invs).kpi.orders = 0 → (statsProcess c invs).kpi.avgOrderValue = 0))
  ∧ ((0 < (filteredStatsCal s y v).orders →
        (filteredStatsCal s y v).avg
          = (filteredStatsCal s y v).revenue / ((filteredStatsCal s y v).orders : ℚ))
      ∧ ((filteredStatsCal s y v).orders = 0 → (filteredStatsCal s y v).avg = 0)) := by
  constructor
  · constructor
    · intro h
      simp only [statsProcess] at h ⊢
      rw [if_pos h]
    · intro h
      simp only [statsProcess] at h ⊢
      rw [if_neg (by omega)]
  · constructor
    · intro h
      simp only [filteredStatsCal, filteredStatsWith] at h ⊢
      rw [if_pos h]
    · intro h
      simp only [filteredStatsCal, filteredStatsWith] at h ⊢
      rw [if_neg (by omega)]

/-- C6 witness: the zero-count branch applied to empty data: the average
is exactly 0, with no division performed. -/
theorem avg_guarded_division_witness :
    (statsProcess "ACME" []).kpi.avgOrderValue = 0
  ∧ (filteredStatsCal [] 2026 ViewBy.year).avg = 0 :=
  ⟨(avg_guarded_division "ACME" [] [] 2026 ViewBy.year).1.2 rfl,
   (avg_guarded_division "ACME" [] [] 2026 ViewBy.year).2.2 rfl⟩

/-- C9: in every stats response each bucket is internally consistent
(count = number of orders, total = sum of order amounts), the KPI revenue
is the sum of the bucket totals, and the KPI invoice count is the sum of
the bucket counts. -/
theorem salesByAddress_consistent (c : String) (invs : List OdooInvoice) :
    (∀ p ∈ (statsProcess c invs).salesByAddress, consistentBucket p.2)
  ∧ (statsProcess c invs).kpi.revenue
      = ((statsProcess c invs).salesByAddress.map (fun p => p.2.total)).sum
  ∧ (statsProcess c invs).kpi.orders
      = ((statsProcess c invs).salesByAddress.map (fun p => p.2.count)).sum := by
  obtain ⟨h1, h2, h3, h4⟩ := statsFold_spec invs (0, [])
  refine ⟨?_, ?_, ?_⟩
  · intro p hp
    refine h4 ?_ p (by simpa [statsProcess] using hp)
    intro q hq
    simp at hq
  · simp only [statsProcess]
    rw [h1, h2]
    simp
  · simp only [statsProcess]
    rw [h3]
    simp

/-- C9 witness: the bucket built for a single processed invoice is
consistent, and the sums match at that concrete input. -/
theorem salesByAddress_consistent_witness :
    consistentBucket
      ⟨1, signAdjustedAmount sampleInv1,
        [⟨sampleInv1.id, sampleInv1.name, sampleInv1.invoice_date,
          signAdjustedAmount sampleInv1⟩]⟩
  ∧ (statsProcess "ACME" [sampleInv1]).kpi.revenue
      = ((statsProcess "ACME" [sampleInv1]).salesByAddress.map (fun p => p.2.total)).sum := by
  constructor
  · exact (salesByAddress_consistent "ACME" [sampleInv1]).1 _ (List.mem_singleton.mpr rfl)
  · exact (salesByAddress_consistent "ACME" [sampleInv1]).2.1

/-- C7: for every period selection, the chart series has exactly one
bucket per calendar unit, in order — in month view one bucket per day
`1..daysInMonth` of the viewed month, in year view one bucket per month —
and each bucket's value is the sum of the amounts of the orders falling in
that unit (so a unit with no orders is present with value 0). Holds for
both the calendar-year and the financial-year page variant. -/
theorem chart_axis_complete (s : List (String × Bucket)) (y : Int) (m : Nat)
    (hm : m < 12)
    (hvalid : ∀ o ∈ allOrders s, o.date.month < 12 ∧ 1 ≤ o.date.day ∧
        o.date.day ≤ daysInMonth o.date.year o.date.month) :
    (chartDataCal s y (ViewBy.month m)
       = (List.range (daysInMonth y m)).map (fun i => (Nat.repr (i + 1),
           (((allOrders s).filter (fun o => (o.date.year == y && o.date.month == m)
              && (o.date.day == i + 1))).map (fun o => o.amount)).sum)))
  ∧ (chartDataCal s y ViewBy.year
       = (List.range 12).map (fun i => (shortMonthName i,
           (((allOrders s).filter (fun o => o.date.year == y && o.date.month == i)).map
             (fun o => o.amount)).sum)))
  ∧ (chartDataFin s y (ViewBy.month m)
       = (List.range (daysInMonth (if m ≥ 9 then y + 1 else y) ((m + 3) % 12))).map
           (fun i => (Nat.repr (i + 1),
           (((allOrders s).filter (fun o =>
              (o.date.year == (if m ≥ 9 then y + 1 else y) && o.date.month == (m + 3) % 12)
              && (o.date.day == i + 1))).map (fun o => o.amount)).sum)))
  ∧ (chartDataFin s y ViewBy.year
       = (List.range 12).map (fun i => (shortMonthName ((i + 3) % 12),
           (((allOrders s).filter (fun o => financialYear o.date == y
              && o.date.month == (i + 3) % 12)).map (fun o => o.amount)).sum))) := by
  have hday : ∀ o ∈ allOrders s, o.date.day ≤ 31 :=
    fun o ho => le_trans (hvalid o ho).2.2 (daysInMonth_le_31 _ _)
  have hmonth : ∀ o ∈ allOrders s, o.date.month < 12 := fun o ho => (hvalid o ho).1
  refine ⟨?_, ?_, ?_, ?_⟩
  · simpa only [chartDataCal] using chartFold_days (allOrders s) y m hday
  · have h := chartFold_year (allOrders s) (fun o => o.date.year == y) (fun i => i)
      (fun i hi => hi) hmonth
    simp only [chartDataCal]
    rw [monthShortNames_eq]
    simpa using h
  · simpa only [chartDataFin] using
      chartFold_days (allOrders s) (if m ≥ 9 then y + 1 else y) ((m + 3) % 12) hday
  · have h := chartFold_year (allOrders s) (fun o => financialYear o.date == y)
      (fun i => (i + 3) % 12) (fun i _ => Nat.mod_lt _ (by norm_num)) hmonth
    simp only [chartDataFin]
    rw [finMonthShortNames_eq]
    simpa using h

/-- C7 witness: for the sample payload and May 2026, the month view has
exactly 31 day buckets and both year views have exactly 12 month buckets. -/
theorem chart_axis_complete_witness :
    (chartDataCal sampleSales 2026 (ViewBy.month 4)).length = 31
  ∧ (chartDataCal sampleSales 2026 ViewBy.year).length = 12
  ∧ (chartDataFin sampleSales 2026 ViewBy.year).length = 12 := by
  have h := chart_axis_complete sampleSales 2026 4 (by decide) (by decide)
  refine ⟨?_, ?_, ?_⟩
  · rw [h.1]
    simp only [List.length_map, List.length_range]
    decide
  · rw [h.2.1]
    simp
  · rw [h.2.2.2]
    simp

/-- C8: whenever stripping the leading customer-name prefix (with a
following comma and whitespace) and trimming leaves fewer than 2
characters, the displayed label is exactly "Main Office"; and every bar
of the location-spend view is labelled through exactly this computation
(in both page variants). -/
theorem short_clean_address_main_office (customer nm : String)
    (h : (cleanAddress customer nm).length < 2)
    (s : List (String × Bucket)) (y : Int) (v : ViewBy) :
    addressLabel customer nm = "Main Office"
  ∧ (∀ e ∈ deliveryBarDataCal customer s y v, e.name = addressLabel customer e.fullName)
  ∧ (∀ e ∈ deliveryBarDataFin customer s y v, e.name = addressLabel customer e.fullName) := by
  refine ⟨?_, deliveryBarDataWith_label _ _ _, deliveryBarDataWith_label _ _ _⟩
  rw [addressLabel]
  simp only [relabeledAddress]
  rw [if_pos h]
  decide

/-- C8 witness: the address "ACME,  " of customer "ACME" strips to the
empty string and is labelled "Main Office". -/
theorem short_clean_address_main_office_witness :
    addressLabel "ACME" "ACME,  " = "Main Office" :=
  (short_clean_address_main_office "ACME" "ACME,  " (by decide) [] 2026 ViewBy.year).1

/-- C10: an address of the payload appears among the bars of the
sales-by-address view exactly when the sum of its filtered order amounts
for the selected period is strictly positive (in both page variants); an
address whose filtered total is zero or negative is omitted. -/
theorem address_shown_iff_positive_total (c : String) (s : List (String × Bucket))
    (y : Int) (v : ViewBy) (name : String) (b : Bucket)
    (hnodup : (s.map Prod.fst).Nodup) (hmem : (name, b) ∈ s) :
    ((∃ e ∈ deliveryBarDataCal c s y v, e.fullName = name) ↔
        0 < ((b.orders.filter (matchesCal y v)).map (fun o => o.amount)).sum)
  ∧ ((∃ e ∈ deliveryBarDataFin c s y v, e.fullName = name) ↔
        0 < ((b.orders.filter (matchesFin y v)).map (fun o => o.amount)).sum) :=
  ⟨deliveryBarDataWith_mem_iff (matchesCal y v) c s name b hnodup hmem,
   deliveryBarDataWith_mem_iff (matchesFin y v) c s name b hnodup hmem⟩

/-- C10 witness: in the sample payload, "ACME, North" (filtered total
150.00) appears among the bars while "ACME, South" (filtered total
-30.00, a credit-note-dominated address) is omitted. -/
theorem address_shown_iff_positive_total_witness :
    (∃ e ∈ deliveryBarDataCal "ACME" sampleSales 2026 ViewBy.year, e.fullName = "ACME, North")
  ∧ ¬ (∃ e ∈ deliveryBarDataCal "ACME" sampleSales 2026 ViewBy.year,
        e.fullName = "ACME, South") := by
  have hN := (address_shown_iff_positive_total "ACME" sampleSales 2026 ViewBy.year
      "ACME, North" northBucket (by decide) (List.mem_cons_self _ _)).1
  have hS := (address_shown_iff_positive_total "ACME" sampleSales 2026 ViewBy.year
      "ACME, South" southBucket (by decide)
      (List.mem_cons_of_mem _ (List.mem_cons_self _ _))).1
  constructor
  · refine hN.mpr ?_
    norm_num [northBucket, sampleOrder1, sampleOrder2, matchesCal, List.filter]
  · intro hex
    have hpos := hS.mp hex
    norm_num [southBucket, sampleOrder3, matchesCal, List.filter] at hpos
